import Mathlib

/-
Shallow embedding of pyani_db.py (pyani SQLite3 persistence layer).

The SQLite database state is modelled as lists of rows, one list per table
of SQL_CREATEDB, together with the AUTOINCREMENT counters SQLite keeps in
sqlite_sequence.  Each Python function of the module becomes a Lean
function on that state; a raised sqlite3.IntegrityError becomes
Except.error DBError.constraintViolation.  SQL NULL in the nullable TEXT
columns of the comparisons table is Option.none, and the WHERE clause
equality of SQL (three-valued: NULL = x is not true) is the Boolean
function sqlEq below.  The REAL columns (identity, coverage, mismatches,
aligned_length) are modelled as Option Rat: no claim depends on floating
point rounding, only on rows being stored and retrieved unchanged.
-/

namespace PyaniDB

/-- Row of the genomes table of SQL_CREATEDB: genome_id INTEGER PRIMARY KEY
AUTOINCREMENT, hash TEXT, path TEXT, description TEXT.  The claims only
exercise string-valued hash, path and description, so those columns are
modelled as String. -/
structure Genome where
  genome_id : Nat
  hash : String
  path : String
  description : String
deriving DecidableEq, Repr

/-- Row of the runs table of SQL_CREATEDB: run_id INTEGER PRIMARY KEY
AUTOINCREMENT, method TEXT, cmdline TEXT, date TEXT, status TEXT. -/
structure RunRow where
  run_id : Nat
  method : String
  cmdline : String
  date : String
  status : String
deriving DecidableEq, Repr

/-- Row of the runs_genomes table of SQL_CREATEDB: run_id INTEGER NOT NULL,
genome_id INTEGER NOT NULL, PRIMARY KEY (run_id, genome_id), with FOREIGN
KEY clauses referencing runs and genomes. -/
structure RunGenome where
  run_id : Nat
  genome_id : Nat
deriving DecidableEq, Repr

/-- Row of the comparisons table of SQL_CREATEDB: query_id INTEGER NOT
NULL, subject_id INTEGER NOT NULL, identity REAL, coverage REAL,
mismatches REAL, aligned_length REAL, program TEXT, version TEXT,
fragsize TEXT, maxmatch TEXT, PRIMARY KEY (query_id, subject_id).  The
nullable columns are Option; NULL is none. -/
structure Comparison where
  query_id : Nat
  subject_id : Nat
  identity : Option Rat
  coverage : Option Rat
  mismatches : Option Rat
  aligned_length : Option Rat
  program : Option String
  version : Option String
  fragsize : Option String
  maxmatch : Option String
deriving DecidableEq, Repr

/-- State of one pyani SQLite3 database file: the four tables created by
SQL_CREATEDB plus the AUTOINCREMENT sequence counters (next genome_id,
next run_id) and the implicit rowid counter of runs_genomes, which has no
INTEGER PRIMARY KEY column of its own. -/
structure DB where
  genomes : List Genome
  runs : List RunRow
  runs_genomes : List RunGenome
  comparisons : List Comparison
  seqGenomes : Nat
  seqRuns : Nat
  rowidRunsGenomes : Nat
deriving DecidableEq, Repr

/-- Error raised by sqlite3 when an INSERT violates a uniqueness
constraint (sqlite3.IntegrityError in the Python module). -/
inductive DBError where
  | constraintViolation
deriving DecidableEq, Repr

/-- Boolean check that a key function is injective over the entries of a
list: no two entries (counting positions) share a key.  Used to state the
uniqueness constraints SQLite enforces through PRIMARY KEY and UNIQUE
INDEX declarations. -/
def uniqueBy {α : Type} {κ : Type} [BEq κ] (key : α → κ) : List α → Bool
  | [] => true
  | a :: rest => rest.all (fun b => !(key a == key b)) && uniqueBy key rest

/-- The uniqueness constraint SQL_CREATEDB declares on the comparisons
table: PRIMARY KEY (query_id, subject_id).  Note that the primary key is
the genome pair alone; program, version, fragsize and maxmatch are not
part of it. -/
def comparisonsPKOk (cs : List Comparison) : Bool :=
  uniqueBy (fun c => (c.query_id, c.subject_id)) cs

/-- The uniqueness of genome_id in the genomes table (INTEGER PRIMARY KEY
in SQL_CREATEDB). -/
def genomesIdUnique (gs : List Genome) : Bool :=
  uniqueBy Genome.genome_id gs

/-- The uniqueness constraint of the genomehashpath_index UNIQUE index of
SQL_INDEXGENOMEHASH: no two genome rows share the same (hash, path). -/
def genomesHashPathUnique (gs : List Genome) : Bool :=
  uniqueBy (fun g => (g.hash, g.path)) gs

/-- Truth of the SQL predicate column = parameter under three-valued
logic, collapsed to the Boolean a WHERE clause uses: the row qualifies
only when both sides are non-NULL and equal.  In particular NULL = NULL
is not true, so a NULL parameter matches no row at all. -/
def sqlEq (a b : Option String) : Bool :=
  match a, b with
  | some x, some y => x == y
  | _, _ => false

/-- Python create_db: executes SQL_CREATEDB (DROP TABLE IF EXISTS then
CREATE TABLE for each of the four tables) and SQL_INDEXGENOMEHASH (drop
and recreate the two genome indexes).  Dropping a table also deletes its
sqlite_sequence entry, so the AUTOINCREMENT counters restart at 1.  The
result is the empty schema regardless of what was stored before. -/
def create_db (_db : DB) : DB :=
  { genomes := []
    runs := []
    runs_genomes := []
    comparisons := []
    seqGenomes := 1
    seqRuns := 1
    rowidRunsGenomes := 1 }

/-- Python add_run: executes SQL_ADDRUN, an INSERT into runs with no
uniqueness constraint beyond the AUTOINCREMENT primary key, and returns
cur.lastrowid, the fresh run_id. -/
def add_run (db : DB) (method cmdline date status : String) : DB × Nat :=
  ({ db with
      runs := db.runs ++ [⟨db.seqRuns, method, cmdline, date, status⟩]
      seqRuns := db.seqRuns + 1 },
   db.seqRuns)

/-- Python add_genome: executes SQL_ADDGENOME, an INSERT into genomes.
SQLite rejects the row with an IntegrityError when the UNIQUE index
genomehashpath_index already holds the same (hash, path) pair; otherwise
the row is stored with the next AUTOINCREMENT genome_id, which the
function returns as cur.lastrowid. -/
def add_genome (db : DB) (hash filepath desc : String) :
    Except DBError (DB × Nat) :=
  if db.genomes.any (fun g => g.hash == hash && g.path == filepath) then
    .error .constraintViolation
  else
    .ok ({ db with
            genomes := db.genomes ++ [⟨db.seqGenomes, hash, filepath, desc⟩]
            seqGenomes := db.seqGenomes + 1 },
         db.seqGenomes)

/-- Python add_genome_to_run: executes SQL_ADDRUNGENOME, an INSERT into
runs_genomes.  SQLite rejects the row with an IntegrityError when the
PRIMARY KEY (run_id, genome_id) pair is already present.  The FOREIGN KEY
clauses declared in SQL_CREATEDB are NOT enforced at run time: the module
opens every connection with sqlite3.connect and never issues PRAGMA
foreign_keys = ON, and SQLite leaves foreign key enforcement off by
default, so an insert referencing an absent run_id or genome_id succeeds.
Returns cur.lastrowid, the implicit rowid of the new association row. -/
def add_genome_to_run (db : DB) (run_id genome_id : Nat) :
    Except DBError (DB × Nat) :=
  if db.runs_genomes.any
      (fun rg => rg.run_id == run_id && rg.genome_id == genome_id) then
    .error .constraintViolation
  else
    .ok ({ db with
            runs_genomes := db.runs_genomes ++ [⟨run_id, genome_id⟩]
            rowidRunsGenomes := db.rowidRunsGenomes + 1 },
         db.rowidRunsGenomes)

/-- Python get_genome: with path None executes SQL_GETGENOMEHASH (all rows
whose hash matches), otherwise SQL_GETGENOMEHASHPATH (rows matching the
exact hash and path), and returns cur.fetchall, the full list of matching
rows. -/
def get_genome (db : DB) (hash : String) (path : Option String) :
    List Genome :=
  match path with
  | none => db.genomes.filter (fun g => g.hash == hash)
  | some p => db.genomes.filter (fun g => g.hash == hash && g.path == p)

/-- Python get_genome_path: executes SQL_GETGENOMEPATH and returns
result[0] where result = cur.fetchone().  When no row has the requested
genome_id, fetchone returns None and the subscript result[0] raises a
TypeError; that raised error is modelled as none.  When a row exists the
function returns its path column. -/
def get_genome_path (db : DB) (genome_id : Nat) : Option String :=
  ((db.genomes.filter (fun g => g.genome_id == genome_id)).head?).map
    (fun g => g.path)

/-- Python get_genome_ids_by_run: executes SQL_GETGENOMESBYRUN and returns
the list of genome_id values of all runs_genomes rows whose run_id
matches (a list comprehension over cur.fetchall). -/
def get_genome_ids_by_run (db : DB) (run_id : Nat) : List Nat :=
  (db.runs_genomes.filter (fun rg => rg.run_id == run_id)).map
    (fun rg => rg.genome_id)

/-- The WHERE clause of SQL_GETCOMPARISON as a row predicate: query_id=?
AND subject_id=? AND program=? AND version=? AND fragsize=? AND
maxmatch=?.  The first placeholder is bound to the subj_id argument and
the second to targ_id, in the order get_comparison passes them; the four
TEXT comparisons follow SQL three-valued equality (sqlEq). -/
def matchesComparison (subj_id targ_id : Nat)
    (program version fragsize maxmatch : Option String)
    (c : Comparison) : Bool :=
  c.query_id == subj_id && c.subject_id == targ_id &&
  sqlEq c.program program && sqlEq c.version version &&
  sqlEq c.fragsize fragsize && sqlEq c.maxmatch maxmatch

/-- Python get_comparison: executes SQL_GETCOMPARISON with parameters
(subj_id, targ_id, program, version, fragsize, maxmatch) and returns
cur.fetchone(): the first matching row, or None when no row matches.
In Python fragsize and maxmatch default to None (SQL NULL) when the
caller omits them; here the caller passes none explicitly. -/
def get_comparison (db : DB) (subj_id targ_id : Nat)
    (program version fragsize maxmatch : Option String) :
    Option Comparison :=
  (db.comparisons.filter
    (matchesComparison subj_id targ_id program version fragsize maxmatch)).head?

/-- Example genome row, matching the scenario of the module docs. -/
def exG1 : Genome := ⟨1, "abc123", "/data/g1.fasta", "genome one"⟩

/-- Example database holding one genome, with the AUTOINCREMENT counter
past it. -/
def dbC3 : DB := ⟨[exG1], [], [], [], 2, 1, 1⟩

/-- Example run row. -/
def runA : RunRow := ⟨1, "ANIm", "pyani run", "2017-01-01", "done"⟩

/-- Example database holding one run and one genome and no associations. -/
def dbC5 : DB := ⟨[exG1], [runA], [], [], 2, 2, 1⟩

/-- Example database with three run/genome associations. -/
def dbC6 : DB := ⟨[], [], [⟨1, 10⟩, ⟨1, 11⟩, ⟨2, 12⟩], [], 1, 3, 4⟩

/-- The database dbC6 after associating genome 13 with run 1. -/
def dbC6after : DB := ⟨[], [], [⟨1, 10⟩, ⟨1, 11⟩, ⟨2, 12⟩, ⟨1, 13⟩], [], 1, 3, 5⟩

/-- Comparison row stored with NULL fragsize and NULL maxmatch. -/
def cmpNull : Comparison :=
  ⟨1, 2, none, none, none, none, some "ANIb", some "2.2.31", none, none⟩

/-- Example database holding only cmpNull. -/
def dbC2 : DB := ⟨[], [], [], [cmpNull], 1, 1, 1⟩

/-- Comparison row for genome pair (1, 2) with fragsize 1020. -/
def cmpFrag1020 : Comparison :=
  ⟨1, 2, none, none, none, none, some "ANIb", some "2.2.31", some "1020", none⟩

/-- Comparison row identical to cmpFrag1020 except for fragsize 500. -/
def cmpFrag500 : Comparison :=
  ⟨1, 2, none, none, none, none, some "ANIb", some "2.2.31", some "500", none⟩

/-- Comparison row with every TEXT parameter set (non-NULL). -/
def cmpFull : Comparison :=
  ⟨1, 2, none, none, none, none, some "ANIb", some "2.2.31", some "1020", some "1"⟩

/-- Example database holding only cmpFull. -/
def dbC10 : DB := ⟨[], [], [], [cmpFull], 1, 1, 1⟩

/-- Entries of a uniqueBy list with equal keys are equal. -/
theorem uniqueBy_inj {α : Type} {κ : Type} [BEq κ] [LawfulBEq κ]
    (key : α → κ) (l : List α) (hu : uniqueBy key l = true) :
    ∀ a ∈ l, ∀ b ∈ l, key a = key b → a = b := by
  induction l with
  | nil => intro a ha; cases ha
  | cons c rest ih =>
    rw [uniqueBy, Bool.and_eq_true, List.all_eq_true] at hu
    obtain ⟨hall, hrest⟩ := hu
    intro a ha b hb hk
    rcases List.mem_cons.mp ha with ha1 | ha2 <;>
      rcases List.mem_cons.mp hb with hb1 | hb2
    · rw [ha1, hb1]
    · exact absurd (ha1 ▸ hk) (by simpa using hall b hb2)
    · exact absurd (hb1 ▸ hk.symm) (by simpa using hall a ha2)
    · exact ih hrest a ha2 b hb2 hk

/-- A row delivered by fetchone on a filtered query is a stored row and
satisfies the filter. -/
theorem head_filter_sound {α : Type} (p : α → Bool) (l : List α) (r : α)
    (h : (l.filter p).head? = some r) : r ∈ l ∧ p r = true := by
  have hr : r ∈ l.filter p := by
    cases e : l.filter p with
    | nil => rw [e] at h; cases h
    | cons x t =>
      rw [e] at h
      have hrx : x = r := by simpa using h
      rw [← hrx]
      exact List.mem_cons_self x t
  exact List.mem_filter.mp hr

/-- When at most one stored row (as a value) can satisfy the filter,
fetchone on the filtered query delivers exactly the satisfying row. -/
theorem head_filter_of_unique {α : Type} (p : α → Bool) (l : List α)
    (c : α) (hc : c ∈ l) (hpc : p c = true)
    (huniq : ∀ a ∈ l, ∀ b ∈ l, p a = true → p b = true → a = b) :
    (l.filter p).head? = some c := by
  have hcf : c ∈ l.filter p := List.mem_filter.mpr ⟨hc, hpc⟩
  cases e : l.filter p with
  | nil => rw [e] at hcf; cases hcf
  | cons x t =>
    have hx : x ∈ l.filter p := by
      rw [e]
      exact List.mem_cons_self x t
    have hxl := List.mem_filter.mp hx
    have : x = c := huniq x hxl.1 c hc hxl.2 hpc
    rw [this]
    rfl

/-- A NULL parameter never satisfies the SQL equality of a WHERE clause,
whatever the stored column holds. -/
theorem sqlEq_none_right (a : Option String) : sqlEq a none = false := by
  cases a <;> rfl

/-- C9: create_db is idempotent-by-reset: running it twice on any prior
database state yields the same result as running it once, and after each
call all four tables are empty, so any pre-existing rows are lost. -/
theorem create_db_idempotent_reset (db : DB) :
    create_db (create_db db) = create_db db ∧
    (create_db db).genomes = [] ∧
    (create_db db).runs = [] ∧
    (create_db db).runs_genomes = [] ∧
    (create_db db).comparisons = [] :=
  ⟨rfl, rfl, rfl, rfl, rfl⟩

/-- C4: on a fresh store, add_genome h p d succeeds returning genome_id 1,
and get_genome h p then returns exactly one row, carrying the inserted
hash, path and description and the returned genome_id. -/
theorem add_genome_get_genome_roundtrip (db : DB) (h p d : String) :
    ∃ db1, add_genome (create_db db) h p d = .ok (db1, 1) ∧
      get_genome db1 h (some p) = [⟨1, h, p, d⟩] := by
  refine ⟨_, rfl, ?_⟩
  simp [create_db, get_genome, add_genome, List.filter]

/-- C1 (code evaluated at the failing input): the comparisons table
constraint declared by SQL_CREATEDB, PRIMARY KEY (query_id, subject_id),
accepts a row for genome pair (1, 2) with fragsize 1020 but rejects a
second row for the same pair that differs only in fragsize (500), even
though the two rows agree on query_id, subject_id, program and version
and differ in fragsize.  The full six-column key therefore does not act
as the discriminating unique key: rows differing only in fragsize cannot
coexist, contradicting the reuse-across-settings design stated in the
module comments and implied by SQL_GETCOMPARISON keying on all six
columns. -/
theorem comparisons_pk_rejects_second_fragsize :
    comparisonsPKOk [cmpFrag1020] = true ∧
    comparisonsPKOk [cmpFrag1020, cmpFrag500] = false ∧
    cmpFrag1020.query_id = cmpFrag500.query_id ∧
    cmpFrag1020.subject_id = cmpFrag500.subject_id ∧
    cmpFrag1020.program = cmpFrag500.program ∧
    cmpFrag1020.version = cmpFrag500.version ∧
    cmpFrag1020.fragsize ≠ cmpFrag500.fragsize := by
  decide

/-- C2 counterexample: the store dbC2 holds the comparison row cmpNull,
whose fragsize and maxmatch columns are unset (NULL), yet get_comparison
for its query_id, subject_id, program and version with fragsize and
maxmatch left at the unset default returns the absent indicator, not that
row: the unset default matches nothing, because the SQL predicate
fragsize = NULL is never true. -/
theorem get_comparison_null_counterexample :
    cmpNull ∈ dbC2.comparisons ∧
    cmpNull.fragsize = none ∧
    cmpNull.maxmatch = none ∧
    get_comparison dbC2 1 2 (some "ANIb") (some "2.2.31") none none = none := by
  decide

/-- C2 (amended): a get_comparison lookup that leaves fragsize and
maxmatch at their unset default matches no stored row at all, whatever
the store holds and whatever the other parameters are, including rows
whose fragsize and maxmatch columns are likewise unset: the unset default
is neither a wildcard nor a matchable value. -/
theorem get_comparison_null_matches_nothing (db : DB) (s t : Nat)
    (p v : Option String) :
    get_comparison db s t p v none none = none := by
  unfold get_comparison
  have hnone : ∀ c ∈ db.comparisons,
      ¬ matchesComparison s t p v none none c := by
    intro c _
    simp [matchesComparison, sqlEq_none_right]
  rw [List.filter_eq_nil_iff.mpr hnone]
  rfl

/-- C3: add_genome fails with a constraint violation when the (hash,
path) pair is already stored, and succeeds with a fresh genome_id (one no
existing row carries) when the same hash is inserted under a path not yet
stored with it; the freshness hypothesis is the AUTOINCREMENT invariant
that every stored genome_id is below the sequence counter. -/
theorem add_genome_uniqueness (db : DB) (h p p2 d d2 : String) :
    ((∃ g ∈ db.genomes, g.hash = h ∧ g.path = p) →
      add_genome db h p d = .error .constraintViolation) ∧
    (p2 ≠ p → (∀ g ∈ db.genomes, ¬(g.hash = h ∧ g.path = p2)) →
      (∀ g ∈ db.genomes, g.genome_id < db.seqGenomes) →
      ∃ db2, add_genome db h p2 d2 = .ok (db2, db.seqGenomes) ∧
        ∀ g ∈ db.genomes, g.genome_id ≠ db.seqGenomes) := by
  constructor
  · rintro ⟨g, hg, hh, hp⟩
    have hany : db.genomes.any (fun g => g.hash == h && g.path == p) = true :=
      List.any_eq_true.mpr ⟨g, hg, by simp [hh, hp]⟩
    rw [add_genome, if_pos hany]
  · intro _ habs hseq
    have hany : db.genomes.any (fun g => g.hash == h && g.path == p2) = false := by
      rw [List.any_eq_false]
      intro g hg
      have := habs g hg
      simpa using this
    refine ⟨{ db with
        genomes := db.genomes ++ [⟨db.seqGenomes, h, p2, d2⟩]
        seqGenomes := db.seqGenomes + 1 },
      ?_, fun g hg => Nat.ne_of_lt (hseq g hg)⟩
    rw [add_genome, if_neg (by simp [hany])]

/-- Witness for C3 at the concrete store dbC3, which already holds the
genome (hash abc123, path /data/g1.fasta): re-adding that exact pair
fails, while adding the same hash under /data/g2.fasta succeeds and
returns the fresh genome_id 2. -/
theorem add_genome_uniqueness_witness :
    add_genome dbC3 "abc123" "/data/g1.fasta" "dup" =
      .error .constraintViolation ∧
    ∃ db2, add_genome dbC3 "abc123" "/data/g2.fasta" "genome two" =
        .ok (db2, dbC3.seqGenomes) ∧
      ∀ g ∈ dbC3.genomes, g.genome_id ≠ dbC3.seqGenomes :=
  ⟨(add_genome_uniqueness dbC3 "abc123" "/data/g1.fasta" "/data/g2.fasta"
      "dup" "genome two").1 (by decide),
   (add_genome_uniqueness dbC3 "abc123" "/data/g1.fasta" "/data/g2.fasta"
      "dup" "genome two").2 (by decide) (by decide) (by decide)⟩

/-- C8: get_genome_path returns the path column of the unique row holding
the requested genome_id when one exists (genome_id is the INTEGER PRIMARY
KEY, so unique), and fails, modelled as none for the TypeError the Python
code raises on fetchone returning None, when no row holds it. -/
theorem get_genome_path_spec (db : DB) (gid : Nat) :
    (genomesIdUnique db.genomes = true →
      ∀ g ∈ db.genomes, g.genome_id = gid →
        get_genome_path db gid = some g.path) ∧
    ((∀ g ∈ db.genomes, g.genome_id ≠ gid) →
      get_genome_path db gid = none) := by
  constructor
  · intro huniq g hg hgid
    have hinj := uniqueBy_inj Genome.genome_id db.genomes huniq
    have hhead : (db.genomes.filter
        (fun g => g.genome_id == gid)).head? = some g := by
      refine head_filter_of_unique _ _ g hg (by simp [hgid]) ?_
      intro a ha b hb hpa hpb
      refine hinj a ha b hb ?_
      have ha2 : a.genome_id = gid := by simpa using hpa
      have hb2 : b.genome_id = gid := by simpa using hpb
      rw [ha2, hb2]
    rw [get_genome_path, hhead]
    rfl
  · intro habs
    have hnil : db.genomes.filter (fun g => g.genome_id == gid) = [] := by
      rw [List.filter_eq_nil_iff]
      intro g hg
      simpa using habs g hg
    rw [get_genome_path, hnil]
    rfl

/-- Witness for C8 at the concrete store dbC3: genome_id 1 exists and its
path is returned; genome_id 7 does not exist and the call fails. -/
theorem get_genome_path_spec_witness :
    get_genome_path dbC3 1 = some exG1.path ∧
    get_genome_path dbC3 7 = none :=
  ⟨(get_genome_path_spec dbC3 1).1 (by decide) exG1 (by decide) (by decide),
   (get_genome_path_spec dbC3 7).2 (by decide)⟩

/-- C6: membership in the result of get_genome_ids_by_run is exactly the
presence of an association row for that run; a run with no association
rows (in particular a run that does not exist) yields the empty list
rather than an error; and a successful add_genome_to_run extends the
result for that run by exactly the added genome_id. -/
theorem get_genome_ids_by_run_spec (db : DB) (rid : Nat) :
    (∀ gid, gid ∈ get_genome_ids_by_run db rid ↔
      ∃ rg ∈ db.runs_genomes, rg.run_id = rid ∧ rg.genome_id = gid) ∧
    ((∀ rg ∈ db.runs_genomes, rg.run_id ≠ rid) →
      get_genome_ids_by_run db rid = []) ∧
    (∀ gid db2 aid, add_genome_to_run db rid gid = .ok (db2, aid) →
      get_genome_ids_by_run db2 rid = get_genome_ids_by_run db rid ++ [gid]) := by
  refine ⟨?_, ?_, ?_⟩
  · intro gid
    constructor
    · intro hmem
      obtain ⟨rg, hrgf, hfx⟩ := List.mem_map.mp hmem
      obtain ⟨hrg, hq⟩ := List.mem_filter.mp hrgf
      exact ⟨rg, hrg, by simpa using hq, hfx⟩
    · rintro ⟨rg, hrg, hrid, hgid⟩
      refine List.mem_map.mpr ⟨rg, List.mem_filter.mpr ⟨hrg, ?_⟩, hgid⟩
      simp [hrid]
  · intro habs
    rw [get_genome_ids_by_run, List.filter_eq_nil_iff.mpr
      (fun rg hrg => by simpa using habs rg hrg)]
    rfl
  · intro gid db2 aid hadd
    rw [add_genome_to_run] at hadd
    split at hadd
    · cases hadd
    · have hdb2 : db2 = { db with
          runs_genomes := db.runs_genomes ++ [⟨rid, gid⟩]
          rowidRunsGenomes := db.rowidRunsGenomes + 1 } := by
        cases hadd
        rfl
      rw [hdb2]
      simp [get_genome_ids_by_run, List.filter_append, List.filter]

/-- Witness for C6 at the concrete store dbC6: run 1 is associated with
genome 10 (and the membership equivalence is realized there), run 5 has
no associations and yields the empty list, and associating genome 13 with
run 1 appends exactly 13 to the result. -/
theorem get_genome_ids_by_run_spec_witness :
    (10 ∈ get_genome_ids_by_run dbC6 1 ↔
      ∃ rg ∈ dbC6.runs_genomes, rg.run_id = 1 ∧ rg.genome_id = 10) ∧
    get_genome_ids_by_run dbC6 5 = [] ∧
    get_genome_ids_by_run dbC6after 1 = get_genome_ids_by_run dbC6 1 ++ [13] :=
  ⟨(get_genome_ids_by_run_spec dbC6 1).1 10,
   (get_genome_ids_by_run_spec dbC6 5).2.1 (by decide),
   (get_genome_ids_by_run_spec dbC6 1).2.2 13 dbC6after 4 rfl⟩

/-- C5 counterexample: in the store dbC5 no run has run_id 99, yet
add_genome_to_run for (99, 1) succeeds and inserts the association row,
instead of failing with a constraint violation: the FOREIGN KEY clauses
of SQL_CREATEDB are not enforced, because the module never issues PRAGMA
foreign_keys = ON and SQLite leaves enforcement off by default. -/
theorem add_genome_to_run_fk_counterexample :
    (∀ r ∈ dbC5.runs, r.run_id ≠ 99) ∧
    add_genome_to_run dbC5 99 1 =
      .ok ({ dbC5 with runs_genomes := [⟨99, 1⟩], rowidRunsGenomes := 2 }, 1) :=
  ⟨by decide, rfl⟩

/-- C5 (amended): add_genome_to_run fails with a constraint violation
exactly when the (run_id, genome_id) pair is already present in the
association table; otherwise it inserts exactly one association row, even
when the referenced run_id or genome_id does not exist in its table,
since the declared foreign keys are not enforced at run time. -/
theorem add_genome_to_run_spec (db : DB) (rid gid : Nat) :
    ((∃ rg ∈ db.runs_genomes, rg.run_id = rid ∧ rg.genome_id = gid) →
      add_genome_to_run db rid gid = .error .constraintViolation) ∧
    ((∀ rg ∈ db.runs_genomes, ¬(rg.run_id = rid ∧ rg.genome_id = gid)) →
      add_genome_to_run db rid gid =
        .ok ({ db with
                runs_genomes := db.runs_genomes ++ [⟨rid, gid⟩]
                rowidRunsGenomes := db.rowidRunsGenomes + 1 },
             db.rowidRunsGenomes)) := by
  constructor
  · rintro ⟨rg, hrg, hrid, hgid⟩
    have hany : db.runs_genomes.any
        (fun rg => rg.run_id == rid && rg.genome_id == gid) = true :=
      List.any_eq_true.mpr ⟨rg, hrg, by simp [hrid, hgid]⟩
    rw [add_genome_to_run, if_pos hany]
  · intro habs
    have hany : db.runs_genomes.any
        (fun rg => rg.run_id == rid && rg.genome_id == gid) = false := by
      rw [List.any_eq_false]
      intro rg hrg
      simpa using habs rg hrg
    rw [add_genome_to_run, if_neg (by simp [hany])]

/-- Witness for C5 (amended) at concrete stores: re-adding the existing
association (1, 10) of dbC6 fails with the constraint violation, and
adding the dangling association (99, 1) to dbC5 succeeds. -/
theorem add_genome_to_run_spec_witness :
    add_genome_to_run dbC6 1 10 = .error .constraintViolation ∧
    add_genome_to_run dbC5 99 1 =
      .ok ({ dbC5 with
              runs_genomes := dbC5.runs_genomes ++ [⟨99, 1⟩]
              rowidRunsGenomes := dbC5.rowidRunsGenomes + 1 },
           dbC5.rowidRunsGenomes) :=
  ⟨(add_genome_to_run_spec dbC6 1 10).1 (by decide),
   (add_genome_to_run_spec dbC5 99 1).2 (by decide)⟩

/-- C7: when no stored comparison row satisfies the lookup key,
get_comparison returns the absent indicator none (fetchone on an empty
result set); and any row it does return is a stored row satisfying the
key, never a default-valued row.  The function is total: the not-found
case is a value, not a raised error. -/
theorem get_comparison_not_found_spec (db : DB) (s t : Nat)
    (p v f m : Option String) :
    ((∀ c ∈ db.comparisons, ¬ matchesComparison s t p v f m c) →
      get_comparison db s t p v f m = none) ∧
    (∀ r, get_comparison db s t p v f m = some r →
      r ∈ db.comparisons ∧ matchesComparison s t p v f m r = true) := by
  constructor
  · intro habs
    rw [get_comparison, List.filter_eq_nil_iff.mpr habs]
    rfl
  · intro r hr
    exact head_filter_sound _ _ r hr

/-- Witness for C7 at concrete stores: a lookup key matching nothing in
dbC2 yields none, and the row returned by a successful lookup in dbC10 is
the stored row and satisfies the key. -/
theorem get_comparison_not_found_spec_witness :
    get_comparison dbC2 3 4 (some "ANIb") (some "2.2.31") none none = none ∧
    (cmpFull ∈ dbC10.comparisons ∧
      matchesComparison 1 2 (some "ANIb") (some "2.2.31") (some "1020")
        (some "1") cmpFull = true) :=
  ⟨(get_comparison_not_found_spec dbC2 3 4 (some "ANIb") (some "2.2.31")
      none none).1 (by decide),
   (get_comparison_not_found_spec dbC10 1 2 (some "ANIb") (some "2.2.31")
      (some "1020") (some "1")).2 cmpFull rfl⟩

/-- C10: the first genome-ID argument of get_comparison (subj_id) is
matched against the query_id column and the second (targ_id) against
subject_id: in any store satisfying the comparisons PRIMARY KEY that
holds a row with query_id a and subject_id b, a distinct pair, and fully
set parameters, get_comparison a b under the stored parameters returns
that row, while get_comparison b a never returns it. -/
theorem get_comparison_argument_order (db : DB) (a b : Nat)
    (c : Comparison)
    (hpk : comparisonsPKOk db.comparisons = true)
    (hc : c ∈ db.comparisons) (hq : c.query_id = a) (hs : c.subject_id = b)
    (hab : a ≠ b) (pr vr fs mm : String)
    (hpr : c.program = some pr) (hvr : c.version = some vr)
    (hfs : c.fragsize = some fs) (hmm : c.maxmatch = some mm) :
    get_comparison db a b (some pr) (some vr) (some fs) (some mm) = some c ∧
    ∀ r, get_comparison db b a (some pr) (some vr) (some fs) (some mm) =
      some r → r ≠ c := by
  constructor
  · rw [get_comparison]
    refine head_filter_of_unique _ _ c hc ?_ ?_
    · simp [matchesComparison, sqlEq, hq, hs, hpr, hvr, hfs, hmm]
    · intro x hx y hy hpx hpy
      have hpk2 : uniqueBy (fun c : Comparison => (c.query_id, c.subject_id))
          db.comparisons = true := hpk
      refine uniqueBy_inj (fun c : Comparison => (c.query_id, c.subject_id))
        db.comparisons hpk2 x hx y hy ?_
      rw [matchesComparison, Bool.and_eq_true, Bool.and_eq_true,
        Bool.and_eq_true, Bool.and_eq_true, Bool.and_eq_true] at hpx hpy
      have hxq : x.query_id = a := by simpa using hpx.1.1.1.1.1
      have hxs : x.subject_id = b := by simpa using hpx.1.1.1.1.2
      have hyq : y.query_id = a := by simpa using hpy.1.1.1.1.1
      have hys : y.subject_id = b := by simpa using hpy.1.1.1.1.2
      simp [hxq, hxs, hyq, hys]
  · intro r hr hrc
    have hsound := head_filter_sound _ _ r hr
    have hrq : r.query_id = b := by
      have := hsound.2
      rw [matchesComparison, Bool.and_eq_true, Bool.and_eq_true,
        Bool.and_eq_true, Bool.and_eq_true, Bool.and_eq_true] at this
      simpa using this.1.1.1.1.1
    rw [hrc, hq] at hrq
    exact hab hrq

/-- Witness for C10 at the concrete store dbC10, which holds cmpFull for
the pair (1, 2) with all parameters set: get_comparison 1 2 under the
stored parameters returns the row, and get_comparison 2 1 never does. -/
theorem get_comparison_argument_order_witness :
    get_comparison dbC10 1 2 (some "ANIb") (some "2.2.31") (some "1020")
      (some "1") = some cmpFull ∧
    ∀ r, get_comparison dbC10 2 1 (some "ANIb") (some "2.2.31") (some "1020")
      (some "1") = some r → r ≠ cmpFull :=
  get_comparison_argument_order dbC10 1 2 cmpFull (by decide) (by decide)
    (by decide) (by decide) (by decide) "ANIb" "2.2.31" "1020" "1"
    (by decide) (by decide) (by decide) (by decide)

end PyaniDB
